import Mathlib

/-!
Shallow embedding of the Foodgram backend (Django) domain logic:
the relational tables of `backend/recipes/models.py`, the recipe
filters of `backend/api/filters.py`, the favorite / shopping-cart /
subscription toggles and the shopping-list download of
`backend/api/views.py` and `backend/users/views.py`, the recipe-write
serializer of `backend/api/serializers.py`, and the short-link pair
`RecipeViewSet.get_link` / `recipes.views.short_link_redirect`.

Users, recipes, ingredients and tags are identified by `Nat` ids.
A Django table of marker rows (Favorite, ShoppingCart, Subscription)
is a `List (Nat × Nat)` of (user id, recipe/author id) pairs.
Fallible request handlers return `Except`.
-/

namespace Foodgram

/-- One `RecipeIngredient` row of `recipes/models.py`: a (recipe,
ingredient, amount) join row. `amount` is a positive integer field. -/
structure RIRow where
  recipe : Nat
  ingredient : Nat
  amount : Nat
deriving DecidableEq, Repr

/-- One `Ingredient` row: id, name, measurement unit. -/
structure Ingredient where
  id : Nat
  name : String
  measurement_unit : String
deriving DecidableEq, Repr

/-- The relational state the recipe-side claims need: ingredient rows,
RecipeIngredient join rows, and the Favorite / ShoppingCart marker
tables (lists of (user, recipe) pairs). -/
structure DB where
  ingredients : List Ingredient
  recipeIngredients : List RIRow
  favorites : List (Nat × Nat)
  shoppingcarts : List (Nat × Nat)
deriving Repr

/-- Django resolves a reverse-relation lookup name against the related
names declared in `recipes/models.py`.  `UserRecipeRelation` declares
`related_name = "%(class)ss"` on its `recipe` foreign key, so the only
reverse lookup names from `Recipe` into the two marker tables are
`favorites` (for `Favorite`) and `shoppingcarts` (for `ShoppingCart`);
any other name fails to resolve (Django raises `FieldError`). -/
def resolveUserRelation (db : DB) (lookup : String) : Option (List (Nat × Nat)) :=
  if lookup = "favorites" then some db.favorites
  else if lookup = "shoppingcarts" then some db.shoppingcarts
  else none

/-- Django `FieldError`: the lookup name that failed to resolve. -/
structure FieldError where
  lookup : String
deriving DecidableEq, Repr

/-- `RecipeFilter.filter_favorited` / `filter_shopping_cart`
(`api/filters.py`): for an unauthenticated requester return nothing
(truthy value) or everything (falsy value); for an authenticated user
filter (or exclude) the queryset through the reverse lookup named by
`lookupName`, then de-duplicate.  The lookup name is resolved against
the model schema; an unknown name is a `FieldError`. -/
def filterUserRelation (db : DB) (lookupName : String) (requestUser : Option Nat)
    (value : Nat) (qs : List Nat) : Except FieldError (List Nat) :=
  match requestUser with
  | none => .ok (if value ≠ 0 then [] else qs)
  | some u =>
    match resolveUserRelation db lookupName with
    | none => .error ⟨lookupName⟩
    | some rel =>
      .ok ((if value ≠ 0 then qs.filter (fun r => decide ((u, r) ∈ rel))
            else qs.filter (fun r => !decide ((u, r) ∈ rel))).dedup)

/-- `RecipeFilter.filter_favorited` (`api/filters.py` line 21): the
queryset lookup written in the source is `favorite_recipe__user`. -/
def filter_favorited (db : DB) (requestUser : Option Nat) (value : Nat)
    (qs : List Nat) : Except FieldError (List Nat) :=
  filterUserRelation db "favorite_recipe" requestUser value qs

/-- `RecipeFilter.filter_shopping_cart` (`api/filters.py` line 33): the
queryset lookup written in the source is `shoppingcart_recipe__user`. -/
def filter_shopping_cart (db : DB) (requestUser : Option Nat) (value : Nat)
    (qs : List Nat) : Except FieldError (List Nat) :=
  filterUserRelation db "shoppingcart_recipe" requestUser value qs

/-- Errors a toggle view can raise: `Http404` from `get_object_or_404`,
or a DRF `ValidationError` (HTTP 400). -/
inductive ToggleError where
  | notFound
  | validation
deriving DecidableEq, Repr

/-- HTTP method of a toggle request. -/
inductive Method where
  | post
  | delete
deriving DecidableEq, Repr

/-- `RecipeViewSet._add_remove_relation` (`api/views.py`): look up the
recipe (404 if absent); on POST `get_or_create` the (user, recipe) row
and raise `ValidationError` when it already existed; on DELETE delete
the matching rows and raise `ValidationError` when nothing was
deleted.  Returns the new marker table on success. -/
def add_remove_relation (recipes : List Nat) (rel : List (Nat × Nat))
    (method : Method) (user pk : Nat) : Except ToggleError (List (Nat × Nat)) :=
  if pk ∈ recipes then
    match method with
    | .post =>
      if (user, pk) ∈ rel then .error .validation
      else .ok ((user, pk) :: rel)
    | .delete =>
      let remaining := rel.filter (fun p => p ≠ (user, pk))
      if remaining.length = rel.length then .error .validation
      else .ok remaining
  else .error .notFound

/-- Name of the ingredient with id `i` (empty for a dangling id). -/
def ingredientName (db : DB) (i : Nat) : String :=
  ((db.ingredients.find? (fun ing => ing.id == i)).map Ingredient.name).getD ""

/-- Measurement unit of the ingredient with id `i`. -/
def ingredientUnit (db : DB) (i : Nat) : String :=
  ((db.ingredients.find? (fun ing => ing.id == i)).map Ingredient.measurement_unit).getD ""

/-- The grouped sum of `download_shopping_cart`:
`.values('ingredient__name', 'ingredient__measurement_unit')
.annotate(total_amount=Sum('amount')).order_by('ingredient__name')` —
one row per distinct (name, unit) key with the summed amount, ordered
by ingredient name. -/
def aggregateCart (db : DB) (ris : List RIRow) : List (String × String × Nat) :=
  (((ris.map (fun ri => (ingredientName db ri.ingredient, ingredientUnit db ri.ingredient))).dedup).map
    (fun k =>
      (k.1, k.2,
        ((ris.filter (fun ri =>
          (ingredientName db ri.ingredient, ingredientUnit db ri.ingredient) == k)).map
            RIRow.amount).sum))).insertionSort
    (fun a b => a.1 ≤ b.1)

/-- `RecipeViewSet.download_shopping_cart` (`api/views.py` lines
130–157): filter `RecipeIngredient` through the reverse lookup written
in the source, `recipe__shoppingcart_set__user=user` (line 135) — the
segment `shoppingcart_set` is resolved against `Recipe`'s reverse
relations — then group, sum and sort. -/
def download_shopping_cart (db : DB) (user : Nat) :
    Except FieldError (List (String × String × Nat)) :=
  match resolveUserRelation db "shoppingcart_set" with
  | none => .error ⟨"shoppingcart_set"⟩
  | some rel =>
    .ok (aggregateCart db
      (db.recipeIngredients.filter (fun ri => decide ((user, ri.recipe) ∈ rel))))

/-- Errors of the subscribe endpoints. -/
inductive SubscribeError where
  | notFound
  | selfSubscribe
  | alreadySubscribed
deriving DecidableEq, Repr

/-- Python `==` between the string URL kwarg and the integer
`user.pk` (`id == user.pk`, `api/views.py` line 238): in Python a
`str` is never equal to an `int`, whatever their contents, so this
comparison is constantly false. -/
def pyStrEqInt (_s : String) (_n : Nat) : Bool :=
  false

/-- Django's coercion of a string passed as `author_id` to the integer
pk column (`get_or_create(user=user, author_id=id)`): Python
`int(...)` of the kwarg, which on a detail route is a decimal digit
string. -/
def pkOfString (s : String) : Nat :=
  s.toList.foldl (fun acc c => acc * 10 + (c.toNat - '0'.toNat)) 0

/-- `UserViewSet.subscribe`, POST branch (`api/views.py` lines
237–247): the URL kwarg `id` arrives as a string while `user.pk` is an
integer, so the guard `if id == user.pk` compares across types and
never fires; `get_or_create(user=user, author_id=id)` then creates the
(user, author) row — coercing the string to the pk — or rejects a row
that already existed. -/
def api_subscribe_post (subs : List (Nat × Nat)) (user : Nat) (id : String) :
    Except SubscribeError (List (Nat × Nat)) :=
  if pyStrEqInt id user then .error .selfSubscribe
  else if (user, pkOfString id) ∈ subs then .error .alreadySubscribed
  else .ok ((user, pkOfString id) :: subs)

/-- `UserViewSet.subscribe`, POST branch (`users/views.py` lines
91–120): `get_object_or_404` the author, reject `author == user`
(model equality, i.e. equal primary keys), reject an existing row,
otherwise create the (user, author) row. -/
def users_subscribe_post (users : List Nat) (subs : List (Nat × Nat))
    (user pk : Nat) : Except SubscribeError (List (Nat × Nat)) :=
  if pk ∈ users then
    if pk = user then .error .selfSubscribe
    else if (user, pk) ∈ subs then .error .alreadySubscribed
    else .ok ((user, pk) :: subs)
  else .error .notFound

/-- The serializer's request context: `none` models a missing request,
`some none` a request with an anonymous (unauthenticated) user,
`some (some u)` a request authenticated as user `u`. -/
abbrev RequestCtx := Option (Option Nat)

/-- `RecipeSerializer._check_user_related` (`api/serializers.py` lines
197–205): when the context holds a request with an authenticated user,
test whether a (user, recipe) row exists in the given marker table;
otherwise return `False`. -/
def check_user_related (request : RequestCtx) (rel : List (Nat × Nat))
    (obj : Nat) : Bool :=
  match request with
  | some (some u) => decide ((u, obj) ∈ rel)
  | _ => false

/-- `RecipeSerializer.get_is_favorited`: `_check_user_related` against
the `Favorite` table. -/
def get_is_favorited (db : DB) (request : RequestCtx) (recipe : Nat) : Bool :=
  check_user_related request db.favorites recipe

/-- `RecipeSerializer.get_is_in_shopping_cart`: `_check_user_related`
against the `ShoppingCart` table. -/
def get_is_in_shopping_cart (db : DB) (request : RequestCtx) (recipe : Nat) : Bool :=
  check_user_related request db.shoppingcarts recipe

/-- A recipe row as the tag filter sees it: its id and the slugs of its
tags (the `tags` many-to-many of `recipes/models.py`). -/
structure Recipe where
  id : Nat
  tagSlugs : List String
deriving DecidableEq, Repr

/-- The `ValidationError` (HTTP 400) `DjangoFilterBackend` raises when
the filterset form is invalid. -/
inductive FilterError where
  | invalidChoice
deriving DecidableEq, Repr

/-- `RecipeFilter.tags = AllValuesMultipleFilter(field_name='tags__slug')`
(`api/filters.py` line 12): the field's choices are the `tags__slug`
values carried by the recipe table, and `MultipleChoiceField`
validation rejects a submitted slug outside them — the filterset is
invalid and `DjangoFilterBackend` raises a `ValidationError`.  With no
value the queryset is untouched; with valid values the SQL join yields
one row per (recipe, matching tag) pair, OR-combined over the
submitted slugs, and the filter's `distinct` de-duplicates the rows. -/
def tags_filter (qs : List Recipe) (slugs : List String) :
    Except FilterError (List Recipe) :=
  if slugs.isEmpty then .ok qs
  else if slugs.all (fun s => (qs.flatMap Recipe.tagSlugs).contains s) then
    .ok ((qs.flatMap (fun r =>
      (r.tagSlugs.filter (fun s => decide (s ∈ slugs))).map (fun _ => r))).dedup)
  else .error .invalidChoice

/-- `RecipeViewSet.filter_queryset` (`api/views.py` lines 66–68): the
filter backend's result followed by `queryset.distinct()`. -/
def filter_queryset (qs : List Recipe) (slugs : List String) :
    Except FilterError (List Recipe) :=
  (tags_filter qs slugs).map List.dedup

/-- `RecipeWriteSerializer._set_ingredients` (`api/serializers.py`
lines 239–249): delete every `RecipeIngredient` row of the recipe,
then bulk-create one row per submitted (ingredient id, amount) pair. -/
def set_ingredients (rows : List RIRow) (recipe : Nat)
    (ingredients_data : List (Nat × Nat)) : List RIRow :=
  rows.filter (fun row => decide (row.recipe ≠ recipe))
    ++ ingredients_data.map (fun d => ⟨recipe, d.1, d.2⟩)

/-- The recipe-association state `RecipeWriteSerializer.update`
touches: the `RecipeIngredient` table and the recipe↔tag rows. -/
structure RecipeWriteState where
  recipeIngredients : List RIRow
  recipeTags : List (Nat × Nat)
deriving DecidableEq, Repr

/-- `RecipeWriteSerializer.update` (`api/serializers.py` lines
270–280), restricted to the association tables: `instance.tags.set`
replaces the recipe's tag rows and `_set_ingredients` replaces its
`RecipeIngredient` rows. -/
def RecipeWriteSerializer_update (st : RecipeWriteState) (rid : Nat)
    (tags_data : List Nat) (ingredients_data : List (Nat × Nat)) : RecipeWriteState :=
  { recipeIngredients := set_ingredients st.recipeIngredients rid ingredients_data,
    recipeTags := st.recipeTags.filter (fun p => decide (p.1 ≠ rid))
      ++ tags_data.map (fun t => (rid, t)) }

/-- The compact identifier `RecipeViewSet.get_link` puts in the short
link: `reverse('recipe-short-link', kwargs={'pk': pk})` against the
root URLconf pattern `path('s/<int:pk>/', ...)` of
`foodgram/urls.py`, i.e. the decimal primary key. -/
def get_link_code (pk : Nat) : String :=
  toString pk

/-- `RecipeViewSet.get_link` (`api/views.py` lines 159–173): 404 when
the recipe does not exist, otherwise the short link `/s/<pk>/`. -/
def get_link (recipes : List Nat) (pk : Nat) : Except ToggleError String :=
  if pk ∈ recipes then .ok ("/s/" ++ get_link_code pk ++ "/")
  else .error .notFound

/-- Default alphabet of the third-party `short_url` package
(`UrlEncoder`): base-31, with the digits 0 and 1 absent. -/
def shortUrlAlphabet : List Char :=
  "mn6j2c4rv8bpygw95z7hsdaetxuk3fq".toList

/-- Default block size of the `short_url` package's `UrlEncoder`: the
number of low bits its permutation touches. -/
def shortUrlBlockSize : Nat := 24

/-- `UrlEncoder.debase`: read the code as a base-31 numeral over the
default alphabet; a character outside the alphabet raises
`ValueError`, modelled as `none`. -/
def debase (s : String) : Option Nat :=
  s.toList.foldl
    (fun acc c =>
      match acc, shortUrlAlphabet.findIdx? (fun a => a == c) with
      | some n, some i => some (n * shortUrlAlphabet.length + i)
      | _, _ => none)
    (some 0)

/-- `UrlEncoder.decode`: the permutation uses `mapping =
list(range(block_size)); mapping.reverse()`, and `_decode` sets bit
`i` of the result when bit `mapping[i] = block_size - 1 - i` of the
input is set — a reversal of the low 24 bits; bits above the block
(`n & ~mask`) pass through unchanged. -/
def shortUrl_decode (n : Nat) : Nat :=
  ((n >>> shortUrlBlockSize) <<< shortUrlBlockSize) |||
    (List.range shortUrlBlockSize).foldl
      (fun result i =>
        if n / 2 ^ (shortUrlBlockSize - 1 - i) % 2 = 1 then result ||| (1 <<< i)
        else result)
      0

/-- `short_url.decode_url`, modelled from the `short_url` package used
by `recipes/views.py`: `decode_url(s) = decode(debase(s))`. -/
def decode_url (s : String) : Option Nat :=
  (debase s).map shortUrl_decode

/-- `recipes.views.short_link_redirect` (`recipes/views.py` lines
8–18): decode the code with `short_url.decode_url`; on a decode error
or a missing recipe redirect to `/not_found/`, otherwise to the
recipe's detail page `/recipes/<id>/`. -/
def short_link_redirect (recipes : List Nat) (short_code : String) : String :=
  match decode_url short_code with
  | some recipe_id =>
    if recipe_id ∈ recipes then "/recipes/" ++ toString recipe_id ++ "/"
    else "/not_found/"
  | none => "/not_found/"

/-- Concrete database for the shopping-list aggregation claim: user
1's cart holds recipes 1 and 2; recipe 1 uses 200 of ingredient 1
("flour", "g") and recipe 2 uses 100 of the same ingredient. -/
def flourDb : DB :=
  { ingredients := [⟨1, "flour", "g"⟩],
    recipeIngredients := [⟨1, 1, 200⟩, ⟨2, 1, 100⟩],
    favorites := [],
    shoppingcarts := [(1, 1), (1, 2)] }

/-- Concrete database with one Favorite row (user 1, recipe 10). -/
def favDb : DB :=
  { ingredients := [],
    recipeIngredients := [],
    favorites := [(1, 10)],
    shoppingcarts := [] }

/-- Concrete database in which every shopping cart is empty. -/
def emptyCartDb : DB :=
  { ingredients := [],
    recipeIngredients := [],
    favorites := [],
    shoppingcarts := [] }

/-- C1: the spec's flour example would give a single ("flour", "g")
line totalling 300 — and `aggregateCart` does compute that — but
`download_shopping_cart` never reaches the aggregation: its queryset
lookup `recipe__shoppingcart_set__user` (`api/views.py` line 135) does
not resolve against `recipes/models.py`, whose related name is
`shoppingcarts`, so the request raises `FieldError` instead of
producing the report. -/
theorem c1_download_shopping_cart_field_error :
    download_shopping_cart flourDb 1 = .error ⟨"shoppingcart_set"⟩ ∧
    aggregateCart flourDb flourDb.recipeIngredients = [("flour", "g", 300)] :=
  ⟨rfl, rfl⟩

/-- C2: filtering with `is_favorited=1` under an authenticated user's
context does not return the user's Favorite set: the queryset lookup
`favorite_recipe__user` (`api/filters.py` line 21) does not resolve
against `recipes/models.py`, whose related name is `favorites`, so the
request raises `FieldError` even on a recipe the user favorited. -/
theorem c2_filter_favorited_field_error :
    filter_favorited favDb (some 1) 1 [10] = .error ⟨"favorite_recipe"⟩ :=
  rfl

/-- C3: for an existing recipe, POST on the favorite / shopping-cart
toggle creates the (user, recipe) marker row when it is absent,
rejects the request with a `ValidationError` when it is already
present, and any successful POST leaves exactly one (user, recipe)
row. -/
theorem c3_relation_post_creates_once (recipes : List Nat)
    (rel : List (Nat × Nat)) (u pk : Nat) (hr : pk ∈ recipes) :
    ((u, pk) ∉ rel →
      add_remove_relation recipes rel .post u pk = .ok ((u, pk) :: rel)) ∧
    ((u, pk) ∈ rel →
      add_remove_relation recipes rel .post u pk = .error .validation) ∧
    (∀ rel', add_remove_relation recipes rel .post u pk = .ok rel' →
      rel'.count (u, pk) = 1) := by
  refine ⟨fun h => by simp [add_remove_relation, hr, h],
          fun h => by simp [add_remove_relation, hr, h], fun rel' h => ?_⟩
  by_cases hm : (u, pk) ∈ rel
  · simp [add_remove_relation, hr, hm] at h
  · simp [add_remove_relation, hr, hm] at h
    rw [← h, List.count_cons_self, List.count_eq_zero_of_not_mem hm]

/-- Witness for C3 at recipes `[1]`, empty relation table. -/
theorem c3_relation_post_creates_once_witness :
    (1 : Nat) ∈ [1] ∧ ((1, 1) : Nat × Nat) ∉ ([] : List (Nat × Nat)) ∧
    add_remove_relation [1] [] .post 1 1 = .ok [(1, 1)] :=
  ⟨by decide, by decide,
    (c3_relation_post_creates_once [1] [] 1 1 (by decide)).1 (by decide)⟩

/-- C4: after `RecipeWriteSerializer.update` with a new ingredient
list, the recipe's `RecipeIngredient` rows are exactly one row per
submitted (ingredient, amount) pair, and every remaining row of that
recipe names an ingredient of the submitted list — rows for dropped
ingredients are gone. -/
theorem c4_update_replaces_ingredients (st : RecipeWriteState) (rid : Nat)
    (tags_data : List Nat) (data : List (Nat × Nat)) :
    ((RecipeWriteSerializer_update st rid tags_data data).recipeIngredients.filter
      (fun row => row.recipe = rid) = data.map (fun d => ⟨rid, d.1, d.2⟩)) ∧
    (∀ row ∈ (RecipeWriteSerializer_update st rid tags_data data).recipeIngredients,
      row.recipe = rid → row.ingredient ∈ data.map Prod.fst) := by
  constructor
  · show (set_ingredients st.recipeIngredients rid data).filter _ = _
    unfold set_ingredients
    rw [List.filter_append]
    have h1 : (st.recipeIngredients.filter (fun row => decide (row.recipe ≠ rid))).filter
        (fun row => decide (row.recipe = rid)) = [] := by
      simp only [List.filter_filter]
      apply List.filter_eq_nil_iff.mpr
      intro a _
      simp
    have h2 : (data.map (fun d => (⟨rid, d.1, d.2⟩ : RIRow))).filter
        (fun row => decide (row.recipe = rid)) = data.map (fun d => ⟨rid, d.1, d.2⟩) := by
      apply List.filter_eq_self.mpr
      intro a ha
      rcases List.mem_map.mp ha with ⟨d, _, hd⟩
      simp [← hd]
    rw [h1, h2, List.nil_append]
  · intro row hrow hrec
    rcases List.mem_append.mp hrow with hmem | hmem
    · rcases List.mem_filter.mp hmem with ⟨_, hne⟩
      simp [hrec] at hne
    · rcases List.mem_map.mp hmem with ⟨d, hd, hrd⟩
      exact List.mem_map.mpr ⟨d, hd, by rw [← hrd]⟩

/-- Witness for C4: updating a recipe that had ingredients 1 and 2
with the list `[(3, 7)]` leaves exactly the row (3, 7). -/
theorem c4_update_replaces_ingredients_witness :
    (⟨1, 3, 7⟩ : RIRow) ∈
      (RecipeWriteSerializer_update ⟨[⟨1, 1, 200⟩, ⟨1, 2, 5⟩], []⟩ 1 [] [(3, 7)]).recipeIngredients ∧
    (3 : Nat) ∈ ([(3, 7)] : List (Nat × Nat)).map Prod.fst :=
  ⟨by decide,
    (c4_update_replaces_ingredients ⟨[⟨1, 1, 200⟩, ⟨1, 2, 5⟩], []⟩ 1 [] [(3, 7)]).2
      ⟨1, 3, 7⟩ (by decide) (by decide)⟩

/-- C5: the spec says self-subscription is rejected and no
user = author row is ever created; in `api/views.py` the guard
`id == user.pk` compares the string URL kwarg to an integer pk — a
comparison that is always false in Python — so POSTing one's own id
never trips the guard and `get_or_create(user=user, author_id=id)`
creates the (1, 1) row with HTTP 201.  The sibling implementation in
`users/views.py`, which compares coerced model instances, does
reject. -/
theorem c5_self_subscribe_guard_dead :
    api_subscribe_post [] 1 "1" = .ok [(1, 1)] ∧
    users_subscribe_post [1] [] 1 1 = .error .selfSubscribe := by
  constructor
  · show Except.ok ((1, pkOfString "1") :: []) = Except.ok [(1, 1)]
    rfl
  · rfl

/-- C6 counterexample: with recipe 1 carrying only "breakfast", the
supplied slugs `breakfast, vegan` include a choice no recipe carries,
so the filterset is invalid and the request raises a 400
`ValidationError` — it does not return the union list `[recipe 1]`
the claim asserts for every supplied slug set. -/
theorem c6_invalid_slug_rejected :
    filter_queryset [⟨1, ["breakfast"]⟩] ["breakfast", "vegan"] =
      .error .invalidChoice ∧
    ∀ res, filter_queryset [⟨1, ["breakfast"]⟩] ["breakfast", "vegan"] ≠ .ok res := by
  refine ⟨rfl, fun res h => ?_⟩
  rw [show filter_queryset [⟨1, ["breakfast"]⟩] ["breakfast", "vegan"] =
    .error .invalidChoice from rfl] at h
  exact Except.noConfusion h

/-- C6 (amended): with at least one tag slug supplied, each carried by
at least one recipe (so the filterset's choices validation passes),
the filtered recipe list holds exactly the recipes carrying at least
one of the given slugs, and each such recipe appears exactly once. -/
theorem c6_tags_filter_union_no_duplicates (qs : List Recipe)
    (slugs : List String) (hs : slugs ≠ [])
    (hvalid : ∀ s ∈ slugs, ∃ r ∈ qs, s ∈ r.tagSlugs) :
    ∃ res, filter_queryset qs slugs = .ok res ∧
      (∀ r, r ∈ res ↔ r ∈ qs ∧ ∃ s ∈ slugs, s ∈ r.tagSlugs) ∧
      (∀ r ∈ res, res.count r = 1) := by
  have hne : slugs.isEmpty = false := by
    cases slugs with
    | nil => exact absurd rfl hs
    | cons a l => rfl
  have hall : slugs.all (fun s => (qs.flatMap Recipe.tagSlugs).contains s) = true := by
    rw [List.all_eq_true]
    intro s hss
    rcases hvalid s hss with ⟨r, hr, hsr⟩
    exact List.elem_iff.mpr (List.mem_flatMap.mpr ⟨r, hr, hsr⟩)
  have hstep : filter_queryset qs slugs =
      .ok (((qs.flatMap (fun r =>
        (r.tagSlugs.filter (fun s => decide (s ∈ slugs))).map (fun _ => r))).dedup).dedup) := by
    unfold filter_queryset tags_filter
    rw [hne, hall]
    rfl
  refine ⟨_, hstep, ?_, ?_⟩
  · intro r
    simp only [List.mem_dedup, List.mem_flatMap, List.mem_map, List.mem_filter,
      decide_eq_true_eq]
    constructor
    · rintro ⟨a, ha, s, ⟨hsa, hss⟩, har⟩
      exact ⟨har ▸ ha, s, hss, har ▸ hsa⟩
    · rintro ⟨hr, s, hss, hsr⟩
      exact ⟨r, hr, s, ⟨hsr, hss⟩, rfl⟩
  · intro r hr
    exact List.count_eq_one_of_mem (List.nodup_dedup _) hr

/-- Witness for C6 (amended): both supplied slugs are carried by
recipe 1, which appears exactly once; recipe 2 carries neither. -/
theorem c6_tags_filter_union_no_duplicates_witness :
    (["breakfast", "vegan"] : List String) ≠ [] ∧
    (∀ s ∈ (["breakfast", "vegan"] : List String),
      ∃ r ∈ [(⟨1, ["breakfast", "vegan"]⟩ : Recipe), ⟨2, ["dinner"]⟩], s ∈ r.tagSlugs) ∧
    ∃ res, filter_queryset [⟨1, ["breakfast", "vegan"]⟩, ⟨2, ["dinner"]⟩]
        ["breakfast", "vegan"] = .ok res ∧
      (∀ r, r ∈ res ↔ r ∈ [(⟨1, ["breakfast", "vegan"]⟩ : Recipe), ⟨2, ["dinner"]⟩] ∧
        ∃ s ∈ (["breakfast", "vegan"] : List String), s ∈ r.tagSlugs) ∧
      (∀ r ∈ res, res.count r = 1) :=
  ⟨by decide, by decide,
    c6_tags_filter_union_no_duplicates [⟨1, ["breakfast", "vegan"]⟩, ⟨2, ["dinner"]⟩]
      ["breakfast", "vegan"] (by decide) (by decide)⟩

/-- C7: for an existing recipe with no (user, recipe) marker row,
DELETE on the toggle raises a `ValidationError` (HTTP 400), and the
delete removed nothing — the stored table is unchanged. -/
theorem c7_delete_absent_relation_fails (recipes : List Nat)
    (rel : List (Nat × Nat)) (u pk : Nat) (hr : pk ∈ recipes)
    (h : (u, pk) ∉ rel) :
    add_remove_relation recipes rel .delete u pk = .error .validation ∧
    rel.filter (fun p => p ≠ (u, pk)) = rel := by
  have hfilter : rel.filter (fun p => p ≠ (u, pk)) = rel := by
    apply List.filter_eq_self.mpr
    intro p hp
    simp only [ne_eq, decide_not, Bool.not_eq_eq_eq_not, Bool.not_true,
      decide_eq_false_iff_not]
    intro he
    exact h (he ▸ hp)
  exact ⟨by simp [add_remove_relation, hr, h, hfilter], hfilter⟩

/-- Witness for C7 at recipes `[1]`, empty relation table. -/
theorem c7_delete_absent_relation_fails_witness :
    (1 : Nat) ∈ [1] ∧ ((1, 1) : Nat × Nat) ∉ ([] : List (Nat × Nat)) ∧
    add_remove_relation [1] [] .delete 1 1 = .error .validation :=
  ⟨by decide, by decide,
    (c7_delete_absent_relation_fails [1] [] 1 1 (by decide) (by decide)).1⟩

/-- C8: the spec says an empty cart downloads a report with zero
lines and no error; on the code `download_shopping_cart` raises
`FieldError` regardless of the cart's contents, because the lookup
`recipe__shoppingcart_set__user` is resolved (and fails) before any
row is examined. -/
theorem c8_empty_cart_download_field_error :
    download_shopping_cart emptyCartDb 1 = .error ⟨"shoppingcart_set"⟩ :=
  rfl

/-- C9: the get-link/redirect round trip is broken.  For recipe 1 the
short link is `/s/1/`, whose identifier `1` is a character outside the
`short_url` alphabet, so the redirector sends the caller to
`/not_found/`; for recipe 5 the identifier `5` debases to 16 and the
bit reversal decodes it to 524288, so the redirector again sends the
caller to `/not_found/` — never to the recipe's page. -/
theorem c9_short_link_round_trip_broken :
    get_link [1, 5] 1 = .ok "/s/1/" ∧
    short_link_redirect [1, 5] (get_link_code 1) = "/not_found/" ∧
    get_link [1, 5] 5 = .ok "/s/5/" ∧
    decode_url (get_link_code 5) = some 524288 ∧
    short_link_redirect [1, 5] (get_link_code 5) = "/not_found/" ∧
    "/not_found/" ≠ "/recipes/1/" ∧ "/not_found/" ≠ "/recipes/5/" :=
  ⟨rfl, rfl, rfl, by decide, by decide, by decide, by decide⟩

/-- C10: with no request in the serializer context, or a request whose
user is anonymous, `is_favorited` and `is_in_shopping_cart` are false
for every recipe, whatever Favorite / ShoppingCart rows other users
have. -/
theorem c10_unauthenticated_flags_false (db : DB) (r : Nat) :
    get_is_favorited db none r = false ∧
    get_is_favorited db (some none) r = false ∧
    get_is_in_shopping_cart db none r = false ∧
    get_is_in_shopping_cart db (some none) r = false :=
  ⟨rfl, rfl, rfl, rfl⟩

end Foodgram
